import Mathlib

/-!
Shallow embedding of `src/src/main.py` (Variant 16, coroutine averager).

The Python program defines `avg_coroutine`, a generator that is primed with
`next(coro)` and then driven by `coro.send(value)`.  Its loop body is

    value = yield None        -- suspension point A (top-of-loop yield)
    now = time.monotonic()
    if value == 0.0: paused = True; last_zero_time = now; continue
    if paused:
        elapsed = now - last_zero_time
        if elapsed < 1.0: raise RuntimeError(...)
        paused = False
    if value != 0.0:
        buffer.append(value); if len(buffer) > 3: buffer.pop(0)
    avg = None if len(buffer) == 0 else sum(buffer)/len(buffer)
    yield avg                 -- suspension point B (the value sent here is discarded)

We model the generator as an explicit state machine.  The program counter of
the suspended generator frame is one of three positions: suspended at the
top-of-loop yield (`accept`), suspended at the `yield avg` statement
(`emitted`), or terminated after an uncaught exception (`dead`; a Python
generator whose frame exits via an exception raises `StopIteration` on every
later `send`).  Values and timestamps are modelled as rationals; the claims
under scrutiny only involve arithmetic that is exact in both `float` and `ℚ`.
-/

/-- Program counter of the suspended generator frame of `avg_coroutine`. -/
inductive GenPos
  | accept
  | emitted
  | dead
  deriving DecidableEq

/-- Local state of the `avg_coroutine` generator frame: `buffer`, `paused` and
`last_zero_time` are the three Python locals (lines 19-21); `pos` records where
the frame is suspended. -/
structure CoroState where
  buffer : List ℚ
  paused : Bool
  last_zero_time : ℚ
  pos : GenPos
  deriving DecidableEq

/-- Outcome of one `coro.send(value)` call: the generator yields a value
(`none` models Python `None`, i.e. the `NoResult` outcome), or the lockout
`RuntimeError` escapes carrying the measured elapsed time, or the generator is
already finished and `send` raises `StopIteration`. -/
inductive SendResult
  | yielded (r : Option ℚ)
  | error (elapsed : ℚ)
  | stopIteration
  deriving DecidableEq

/-- State right after priming with `next(coro)` (line 70): empty buffer,
`paused = False`, `last_zero_time = 0.0`, suspended at the top-of-loop yield. -/
def initState : CoroState :=
  { buffer := [], paused := false, last_zero_time := 0, pos := GenPos.accept }

/-- Lines 46-49 of `main.py`: `if value != 0.0: buffer.append(value); if
len(buffer) > 3: buffer.pop(0)`. -/
def slideWindow (buffer : List ℚ) (value : ℚ) : List ℚ :=
  if value ≠ 0 then
    (if (buffer ++ [value]).length > 3 then (buffer ++ [value]).tail
     else buffer ++ [value])
  else buffer

/-- Lines 52-55 of `main.py`: `avg = None` on an empty buffer, else
`sum(buffer) / len(buffer)`. -/
def avgOf (buffer : List ℚ) : Option ℚ :=
  if buffer.length = 0 then none else some (buffer.sum / (buffer.length : ℚ))

/-- Lines 45-58 of `main.py`: update the window with a received value, compute
the average and suspend at `yield avg` (position B). -/
def processValue (st : CoroState) (value : ℚ) : CoroState × SendResult :=
  ({ st with buffer := slideWindow st.buffer value, pos := GenPos.emitted },
   SendResult.yielded (avgOf (slideWindow st.buffer value)))

/-- One `coro.send(value)` where `now` is the `time.monotonic()` reading taken
when the frame resumes (line 27).  Faithful to `avg_coroutine`:

* `dead`: the generator already finished, `send` raises `StopIteration`.
* `emitted`: the frame resumes at `yield avg`; the sent value is discarded (the
  yield is a statement), the loop restarts and `value = yield None` yields
  `None`, suspending at position A again.
* `accept`: the sent value is bound to `value` and the loop body (lines 27-58)
  runs: a zero sets `paused`/`last_zero_time` and `continue`s back to the
  top-of-loop yield (yielding `None`); a non-zero while paused with
  `elapsed < 1.0` raises `RuntimeError` which escapes the frame (lines 63-64
  re-raise), killing the generator; otherwise `paused` clears and the value is
  processed normally. -/
def sendStep (st : CoroState) (value now : ℚ) : CoroState × SendResult :=
  match st.pos with
  | GenPos.dead => (st, SendResult.stopIteration)
  | GenPos.emitted => ({ st with pos := GenPos.accept }, SendResult.yielded none)
  | GenPos.accept =>
    if value = 0 then
      ({ st with paused := true, last_zero_time := now }, SendResult.yielded none)
    else if st.paused then
      (if now - st.last_zero_time < 1 then
        ({ st with pos := GenPos.dead }, SendResult.error (now - st.last_zero_time))
      else
        processValue { st with paused := false } value)
    else
      processValue st value

/-- Run a sequence of `send` calls; each input is a pair `(value, now)` of the
sent value and the monotonic clock reading at that call.  Returns the final
state and the per-call outcomes in order. -/
def runSends (st : CoroState) (inputs : List (ℚ × ℚ)) : CoroState × List SendResult :=
  match inputs with
  | [] => (st, [])
  | (v, t) :: rest =>
    ((runSends (sendStep st v t).1 rest).1,
     (sendStep st v t).2 :: (runSends (sendStep st v t).1 rest).2)

/-- Line 76 of `main.py`: `line.strip()` — drop leading and trailing
whitespace. -/
def pyStrip (s : String) : String :=
  String.mk (((s.data.dropWhile Char.isWhitespace).reverse.dropWhile
    Char.isWhitespace).reverse)

/-- Line 80 of `main.py`: `line.replace(',', '.')` — every comma becomes a
dot (Python `str.replace` replaces all occurrences). -/
def replaceCommas (s : String) : String :=
  String.mk (s.data.map (fun c => if c = ',' then '.' else c))

/-- Outcome of one driver loop iteration for one input line. -/
inductive DriverEvent
  | skippedEmpty
  | parseFailed (line : String)
  | sent (v : ℚ) (r : SendResult)
  deriving DecidableEq

/-- Lines 75-94 of `main.py`, one loop iteration: strip the line, skip it if
empty, replace commas by dots and try to parse a float; on failure report the
line and continue without touching the coroutine, on success `send` the parsed
value.  The Python builtin `float` is not part of this repository, so the
driver is parameterised by the parse function `parse` (returning `none` where
`float` raises `ValueError`). -/
def driverStep (parse : String → Option ℚ) (st : CoroState) (rawLine : String)
    (now : ℚ) : CoroState × DriverEvent :=
  if pyStrip rawLine = "" then (st, DriverEvent.skippedEmpty)
  else
    match parse (replaceCommas (pyStrip rawLine)) with
    | none => (st, DriverEvent.parseFailed (pyStrip rawLine))
    | some v => ((sendStep st v now).1, DriverEvent.sent v (sendStep st v now).2)

/-- Claim C1.  Evaluation of the code on the claim's own scenario: priming and
then sending 1.0, 2.0, 3.0 returns mean 1.0, then `None`, then mean 2.0, with
final window `[1.0, 3.0]` — not the means 1.0, 1.5, 2.0 the claim states.  The
second send resumes the frame at `yield avg`, discards 2.0, and yields `None`
from the top-of-loop yield. -/
theorem c1_code_eval :
    runSends initState [(1, 0), (2, 1), (3, 2)] =
      ({ buffer := [1, 3], paused := false, last_zero_time := 0, pos := GenPos.emitted },
       [SendResult.yielded (some 1), SendResult.yielded none, SendResult.yielded (some 2)]) := by
  simp [runSends, sendStep, processValue, slideWindow, avgOf, initState]
  norm_num

/-- Claim C2.  Evaluation of the code on the claim's scenario: send 5.0 at
t = 0, send 0 at t = 0.1, send 6.0 at t = 0.2.  The zero arrives while the
frame is suspended at `yield avg`, so it is discarded: no pause is recorded and
the immediate 6.0 is accepted with mean 5.5 instead of raising the lockout
error the claim requires. -/
theorem c2_code_eval :
    runSends initState [(5, 0), (0, 1/10), (6, 2/10)] =
      ({ buffer := [5, 6], paused := false, last_zero_time := 0, pos := GenPos.emitted },
       [SendResult.yielded (some 5), SendResult.yielded none,
        SendResult.yielded (some (11/2))]) := by
  simp [runSends, sendStep, processValue, slideWindow, avgOf, initState]
  norm_num

/-- Claim C3.  Evaluation of the code: send 0 at t = 0 (pause), send 7.0 at
t = 0.5 (lockout `RuntimeError`), send 7.0 at t = 2.  The error escapes the
generator frame and terminates it, so the later perfectly valid submission
raises `StopIteration` and the window stays empty — the violating call is not
side-effect free and the averager is left permanently unable to process
submissions, contrary to the claim. -/
theorem c3_code_eval :
    runSends initState [(0, 0), (7, 1/2), (7, 2)] =
      ({ buffer := [], paused := true, last_zero_time := 0, pos := GenPos.dead },
       [SendResult.yielded none, SendResult.error (1/2), SendResult.stopIteration]) := by
  simp [runSends, sendStep, processValue, slideWindow, avgOf, initState]
  norm_num

/-- Claim C4.  Evaluation of the code: send 5.0 at t = 0 (mean 5.0), then send
0 at t = 0.1.  The zero resumes the frame at `yield avg` and is discarded: the
call returns `None` but `paused` remains `false` and no timestamp is recorded,
contrary to the claim that every submission of 0 sets the lock. -/
theorem c4_code_eval :
    runSends initState [(5, 0), (0, 1/10)] =
      ({ buffer := [5], paused := false, last_zero_time := 0, pos := GenPos.accept },
       [SendResult.yielded (some 5), SendResult.yielded none]) := by
  simp [runSends, sendStep, processValue, slideWindow, avgOf, initState]

/-- The sliding update of lines 46-49 keeps the window within three entries. -/
lemma slideWindow_length_le (b : List ℚ) (v : ℚ) (h : b.length ≤ 3) :
    (slideWindow b v).length ≤ 3 := by
  unfold slideWindow
  split_ifs with h1 h2
  · simp only [List.length_tail, List.length_append, List.length_singleton]
    omega
  · simp only [List.length_append, List.length_singleton] at h2 ⊢
    omega
  · exact h

/-- The sliding update never introduces the value 0 into the window. -/
lemma slideWindow_zero_notMem (b : List ℚ) (v : ℚ) (hb : (0:ℚ) ∉ b) :
    (0:ℚ) ∉ slideWindow b v := by
  unfold slideWindow
  split_ifs with h1 h2
  · intro hm
    have hm2 : (0:ℚ) ∈ b ++ [v] := (List.tail_sublist _).subset hm
    rcases List.mem_append.mp hm2 with hx | hx
    · exact hb hx
    · exact h1 (List.mem_singleton.mp hx).symm
  · intro hm
    rcases List.mem_append.mp hm with hx | hx
    · exact hb hx
    · exact h1 (List.mem_singleton.mp hx).symm
  · exact hb

/-- Appending a non-zero value leaves the window non-empty. -/
lemma slideWindow_ne_nil (b : List ℚ) (v : ℚ) (hv : v ≠ 0) :
    slideWindow b v ≠ [] := by
  have hlen : 0 < (slideWindow b v).length := by
    unfold slideWindow
    rw [if_pos hv]
    split_ifs with h2
    · simp only [List.length_tail, List.length_append, List.length_singleton] at h2 ⊢
      omega
    · simp only [List.length_append, List.length_singleton]
      omega
  exact List.length_pos.mp hlen

/-- On a non-empty buffer, lines 52-55 produce the arithmetic mean. -/
lemma avgOf_of_ne_nil (b : List ℚ) (h : b ≠ []) :
    avgOf b = some (b.sum / (b.length : ℚ)) := by
  have hlen : b.length ≠ 0 := by simpa [List.length_eq_zero] using h
  simp [avgOf, hlen]

/-- Characterisation of an accepted non-zero `send`: from the top-of-loop
yield, a non-zero value that does not trip the lockout check updates the
window, clears `paused`, yields the average and suspends at `yield avg`. -/
lemma sendStep_accept_nonzero (b : List ℚ) (p : Bool) (lz v t : ℚ) (hv : v ≠ 0)
    (hres : ¬(p = true ∧ t - lz < 1)) :
    sendStep ⟨b, p, lz, GenPos.accept⟩ v t =
      (⟨slideWindow b v, false, lz, GenPos.emitted⟩,
       SendResult.yielded (avgOf (slideWindow b v))) := by
  by_cases hp : p = true
  · have he : ¬(t - lz < 1) := fun he => hres ⟨hp, he⟩
    subst hp
    simp [sendStep, hv, he, processValue]
  · have hp' : p = false := by simpa using hp
    subst hp'
    simp [sendStep, hv, processValue]

/-- Characterisation of a lockout violation: from the top-of-loop yield while
paused, a non-zero value arriving less than one time-unit after the zero
raises the `RuntimeError`, which kills the generator frame. -/
lemma sendStep_accept_locked (b : List ℚ) (lz v t : ℚ) (hv : v ≠ 0)
    (he : t - lz < 1) :
    sendStep ⟨b, true, lz, GenPos.accept⟩ v t =
      (⟨b, true, lz, GenPos.dead⟩, SendResult.error (t - lz)) := by
  simp [sendStep, hv, he]

/-- One `send` preserves the three-element bound on the window. -/
lemma sendStep_length_le (st : CoroState) (v t : ℚ) (h : st.buffer.length ≤ 3) :
    ((sendStep st v t).1).buffer.length ≤ 3 := by
  obtain ⟨b, p, lz, pos⟩ := st
  cases pos with
  | accept =>
    simp only [sendStep]
    split_ifs with h1 h2 h3
    · exact h
    · exact h
    · exact slideWindow_length_le b v h
    · exact slideWindow_length_le b v h
  | emitted => exact h
  | dead => exact h

/-- One `send` never puts the value 0 into the window. -/
lemma sendStep_zero_notMem (st : CoroState) (v t : ℚ) (hb : (0:ℚ) ∉ st.buffer) :
    (0:ℚ) ∉ ((sendStep st v t).1).buffer := by
  obtain ⟨b, p, lz, pos⟩ := st
  cases pos with
  | accept =>
    simp only [sendStep]
    split_ifs with h1 h2 h3
    · exact hb
    · exact hb
    · exact slideWindow_zero_notMem b v hb
    · exact slideWindow_zero_notMem b v hb
  | emitted => exact hb
  | dead => exact hb

/-- Sending the value 0 never changes the window, whatever the suspension
point: the zero branch (lines 30-35) skips the buffer update, a zero arriving
at `yield avg` is discarded, and a finished generator ignores it. -/
lemma sendStep_zero_buffer (st : CoroState) (t : ℚ) :
    ((sendStep st 0 t).1).buffer = st.buffer := by
  obtain ⟨b, p, lz, pos⟩ := st
  cases pos <;> simp [sendStep]

/-- The window bound is preserved along any run. -/
lemma runSends_length_le (inputs : List (ℚ × ℚ)) :
    ∀ st : CoroState, st.buffer.length ≤ 3 →
      ((runSends st inputs).1).buffer.length ≤ 3 := by
  induction inputs with
  | nil => intro st h; exact h
  | cons i rest ih =>
    intro st h
    obtain ⟨v, t⟩ := i
    exact ih _ (sendStep_length_le st v t h)

/-- Zero-freedom of the window is preserved along any run. -/
lemma runSends_zero_notMem (inputs : List (ℚ × ℚ)) :
    ∀ st : CoroState, (0:ℚ) ∉ st.buffer →
      (0:ℚ) ∉ ((runSends st inputs).1).buffer := by
  induction inputs with
  | nil => intro st h; exact h
  | cons i rest ih =>
    intro st h
    obtain ⟨v, t⟩ := i
    exact ih _ (sendStep_zero_notMem st v t h)

/-- A finished generator ignores every further `send` and raises
`StopIteration` (Python generator semantics after the frame exits). -/
lemma sendStep_dead (st : CoroState) (v t : ℚ) (h : st.pos = GenPos.dead) :
    sendStep st v t = (st, SendResult.stopIteration) := by
  obtain ⟨b, p, lz, pos⟩ := st
  have h' : pos = GenPos.dead := h
  subst h'
  simp [sendStep]

/-- A finished generator stays unchanged along any run: every call raises
`StopIteration` and the state (in particular the window) is fixed. -/
lemma runSends_dead (inputs : List (ℚ × ℚ)) :
    ∀ st : CoroState, st.pos = GenPos.dead →
      (runSends st inputs).1 = st ∧
        ∀ r ∈ (runSends st inputs).2, r = SendResult.stopIteration := by
  induction inputs with
  | nil =>
    intro st _
    refine ⟨rfl, ?_⟩
    intro r hr
    simp [runSends] at hr
  | cons i rest ih =>
    intro st h
    obtain ⟨v, t⟩ := i
    have hs := sendStep_dead st v t h
    simp only [runSends, hs]
    refine ⟨(ih st h).1, ?_⟩
    intro r hr
    rcases List.mem_cons.mp hr with h1 | h1
    · exact h1
    · exact (ih st h).2 r h1

/-- Comma replacement (line 80) leaves no comma in the string handed to the
float conversion. -/
lemma replaceCommas_no_comma (s : String) :
    ∀ c ∈ (replaceCommas s).data, c ≠ ',' := by
  intro c hc
  have hc' : c ∈ s.data.map (fun c => if c = ',' then '.' else c) := hc
  obtain ⟨a, _, rfl⟩ := List.mem_map.mp hc'
  by_cases h : a = ','
  · rw [if_pos h]
    decide
  · rw [if_neg h]
    exact h

/-- Claim C5: for every sequence of submissions — any mix of zero and non-zero
values, with or without lockout violations — the window holds at most 3 values
after every `send` (every prefix of a run is itself a run). -/
theorem c5_window_bound (inputs : List (ℚ × ℚ)) :
    ((runSends initState inputs).1).buffer.length ≤ 3 :=
  runSends_length_le inputs initState (by simp [initState])

/-- Claim C6: along every run the window never contains the value 0, and a
submission of the value 0 never changes the window, from any state. -/
theorem c6_zero_exclusion :
    (∀ inputs : List (ℚ × ℚ), (0:ℚ) ∉ ((runSends initState inputs).1).buffer) ∧
      ∀ (st : CoroState) (t : ℚ), ((sendStep st 0 t).1).buffer = st.buffer :=
  ⟨fun inputs => runSends_zero_notMem inputs initState (by simp [initState]),
   fun st t => sendStep_zero_buffer st t⟩

/-- Claim C7: a `send` that returns a numeric mean leaves the frame suspended
at `yield avg`, so the immediately following `send` — whatever value it
carries, zero or not — is discarded: it returns `None` and the state changes
only by moving back to the top-of-loop yield, keeping `buffer`, `paused` and
`last_zero_time` intact. -/
theorem c7_discard_after_mean (st st' : CoroState) (v t m : ℚ)
    (h : sendStep st v t = (st', SendResult.yielded (some m))) (v2 t2 : ℚ) :
    sendStep st' v2 t2 =
      ({ st' with pos := GenPos.accept }, SendResult.yielded none) := by
  have hpos : st'.pos = GenPos.emitted := by
    obtain ⟨b, p, lz, pos⟩ := st
    cases pos with
    | accept =>
      by_cases hv : v = 0
      · rw [hv] at h
        simp [sendStep] at h
      · by_cases hlock : p = true ∧ t - lz < 1
        · obtain ⟨hp, he⟩ := hlock
          subst hp
          simp [sendStep, hv, he] at h
        · rw [sendStep_accept_nonzero b p lz v t hv hlock, Prod.mk.injEq] at h
          obtain ⟨hst, _⟩ := h
          rw [← hst]
    | emitted => simp [sendStep] at h
    | dead => simp [sendStep] at h
  obtain ⟨b', p', lz', pos'⟩ := st'
  have hpos' : pos' = GenPos.emitted := hpos
  subst hpos'
  simp [sendStep]

/-- Witness for C7 at a concrete input: from the primed state, sending 1 at
t = 0 returns mean 1; the follow-up `send 2` at t = 7 is swallowed. -/
theorem c7_witness :
    sendStep { buffer := [1], paused := false, last_zero_time := 0, pos := GenPos.emitted } 2 7 =
      ({ buffer := [1], paused := false, last_zero_time := 0, pos := GenPos.accept },
       SendResult.yielded none) :=
  c7_discard_after_mean initState
    { buffer := [1], paused := false, last_zero_time := 0, pos := GenPos.emitted } 1 0 1
    (by simp [sendStep, processValue, slideWindow, avgOf, initState]) 2 7

/-- Claim C8: once a `send` has raised the lockout `RuntimeError`, the
generator is terminated: every later `send`, for any sequence of further
inputs, raises `StopIteration` and the state — in particular the window —
never changes again. -/
theorem c8_dead_after_error (st st' : CoroState) (v t e : ℚ)
    (h : sendStep st v t = (st', SendResult.error e)) (inputs : List (ℚ × ℚ)) :
    (runSends st' inputs).1 = st' ∧
      ∀ r ∈ (runSends st' inputs).2, r = SendResult.stopIteration := by
  have hpos : st'.pos = GenPos.dead := by
    obtain ⟨b, p, lz, pos⟩ := st
    cases pos with
    | accept =>
      by_cases hv : v = 0
      · rw [hv] at h
        simp [sendStep] at h
      · by_cases hlock : p = true ∧ t - lz < 1
        · obtain ⟨hp, he⟩ := hlock
          subst hp
          rw [sendStep_accept_locked b lz v t hv he, Prod.mk.injEq] at h
          rw [← h.1]
        · rw [sendStep_accept_nonzero b p lz v t hv hlock] at h
          simp at h
    | emitted => simp [sendStep] at h
    | dead => simp [sendStep] at h
  exact runSends_dead inputs st' hpos

/-- Witness for C8 at a concrete input: after a zero at t = 0, sending 5 at
t = 1/2 raises the lockout error; a later valid `send 3` at t = 10 only raises
`StopIteration` and leaves the dead state untouched. -/
theorem c8_witness :
    (runSends (⟨[], true, 0, GenPos.dead⟩ : CoroState) [(3, 10)]).1 =
        (⟨[], true, 0, GenPos.dead⟩ : CoroState) ∧
      ∀ r ∈ (runSends (⟨[], true, 0, GenPos.dead⟩ : CoroState) [(3, 10)]).2,
        r = SendResult.stopIteration :=
  c8_dead_after_error (⟨[], true, 0, GenPos.accept⟩ : CoroState)
    (⟨[], true, 0, GenPos.dead⟩ : CoroState)
    5 (1/2) (1/2) (by norm_num [sendStep]) [(3, 10)]

/-- Claim C9: a non-zero value consumed at the top-of-loop yield that does not
raise the lockout error always lands in a non-empty buffer, and the value
yielded for it is the numeric mean `sum(buffer)/len(buffer)`; the `avg = None`
branch for an empty buffer is unreachable on this path. -/
theorem c9_mean_on_accept (st st' : CoroState) (v t : ℚ) (r : Option ℚ)
    (hpos : st.pos = GenPos.accept) (hv : v ≠ 0)
    (h : sendStep st v t = (st', SendResult.yielded r)) :
    st'.buffer ≠ [] ∧ r = some (st'.buffer.sum / (st'.buffer.length : ℚ)) := by
  obtain ⟨b, p, lz, pos⟩ := st
  have hpos' : pos = GenPos.accept := hpos
  subst hpos'
  by_cases hlock : p = true ∧ t - lz < 1
  · obtain ⟨hp, he⟩ := hlock
    subst hp
    simp [sendStep, hv, he] at h
  · rw [sendStep_accept_nonzero b p lz v t hv hlock] at h
    rw [Prod.mk.injEq] at h
    obtain ⟨hst, hr⟩ := h
    simp only [SendResult.yielded.injEq] at hr
    subst hst
    have hnn := slideWindow_ne_nil b v hv
    exact ⟨hnn, by rw [← hr]; exact avgOf_of_ne_nil _ hnn⟩

/-- Witness for C9 at a concrete input: from the primed state, sending 2 at
t = 0 is accepted and yields the mean of the one-element buffer `[2]`. -/
theorem c9_witness :
    (⟨[2], false, 0, GenPos.emitted⟩ : CoroState).buffer ≠ [] ∧
      (some 2 : Option ℚ) =
        some ((⟨[2], false, 0, GenPos.emitted⟩ : CoroState).buffer.sum /
          ((⟨[2], false, 0, GenPos.emitted⟩ : CoroState).buffer.length : ℚ)) :=
  c9_mean_on_accept initState (⟨[2], false, 0, GenPos.emitted⟩ : CoroState)
    2 0 (some 2) rfl (by norm_num)
    (by simp [sendStep, processValue, slideWindow, avgOf, initState])

/-- Claim C10: one driver iteration hands the parser the stripped line with
every comma replaced by a dot (so no comma survives), and when parsing fails
the line is reported and skipped: the coroutine state is untouched and no
`send` happens for that line. -/
theorem c10_unparsable_skipped (parse : String → Option ℚ) (st : CoroState)
    (rawLine : String) (now : ℚ) (hne : pyStrip rawLine ≠ "")
    (hp : parse (replaceCommas (pyStrip rawLine)) = none) :
    (∀ c ∈ (replaceCommas (pyStrip rawLine)).data, c ≠ ',') ∧
      driverStep parse st rawLine now =
        (st, DriverEvent.parseFailed (pyStrip rawLine)) := by
  refine ⟨replaceCommas_no_comma _, ?_⟩
  unfold driverStep
  rw [if_neg hne, hp]

/-- Witness for C10 at a concrete input: the line `"1,x"` still fails to parse
after the comma is turned into a dot, so it is reported and the primed
coroutine is left untouched. -/
theorem c10_witness :
    (∀ c ∈ (replaceCommas (pyStrip ("1,x"))).data, c ≠ ',') ∧
      driverStep (fun _ => none) initState ("1,x") 0 =
        (initState, DriverEvent.parseFailed (pyStrip ("1,x"))) :=
  c10_unparsable_skipped (fun _ => none) initState ("1,x") 0 (by decide) rfl
